import Mathlib

/-!
Shallow embedding of the skill-share-circle serverless handlers
(`send-request`, `accept-request`, `complete-session`) and the parts of
the relational schema they read and write.

Tables are lists of rows; every handler is a pure function from a
database state (plus the authenticated caller, the parsed JSON body,
fresh row ids, and the current timestamp) to an HTTP-style response
paired with the successor database state.  Writes whose errors the
TypeScript code inspects are given an explicit fault flag so the
error branches of the handlers are representable; writes whose errors
the code ignores (`await` with no check) are modelled as succeeding.
Credit amounts are rationals, mirroring the decimal `credits` column.
-/

namespace SkillShare

/-- A row of `profiles` (only the columns the handlers touch). -/
structure Profile where
  user_id : String
  name : String
  credits : ℚ
  deriving Repr, DecidableEq

/-- A row of `learning_requests`. -/
structure LearningRequest where
  id : String
  learner_id : String
  tutor_id : String
  skill_id : Option String
  message : String
  proposed_datetime : Option String
  status : String
  deriving Repr, DecidableEq

/-- A row of `sessions`. -/
structure Session where
  id : String
  request_id : Option String
  tutor_id : String
  learner_id : String
  skill_id : Option String
  scheduled_at : String
  duration_minutes : Nat
  status : String
  tutor_notes : Option String
  learner_notes : Option String
  is_ai_session : Bool
  completed_at : Option String
  deriving Repr, DecidableEq

/-- A row of `conversations`: the participant pair plus activity stamp. -/
structure Conversation where
  id : String
  participant_1 : String
  participant_2 : String
  last_message_at : Option String
  deriving Repr, DecidableEq

/-- A row of `messages`. -/
structure Message where
  conversation_id : String
  sender_id : String
  content : String
  deriving Repr, DecidableEq

/-- A row of `credit_transactions` (the append-only ledger). -/
structure CreditTransaction where
  user_id : String
  amount : ℚ
  type : String
  session_id : Option String
  description : String
  deriving Repr, DecidableEq

/-- The database state visible to the three handlers. -/
structure DB where
  profiles : List Profile
  learning_requests : List LearningRequest
  sessions : List Session
  conversations : List Conversation
  messages : List Message
  credit_transactions : List CreditTransaction
  deriving Repr, DecidableEq

/-- An HTTP-style response: status code plus the JSON error/success text. -/
structure Response where
  status : Nat
  body : String
  deriving Repr, DecidableEq

/-- Row lookup on `profiles` by `user_id`, the embedding of the
`select().eq(user_id).single()` calls of the handlers. -/
def findProfile (ps : List Profile) (uid : String) : Option Profile :=
  ps.find? fun p => p.user_id == uid

/-- The `credits` column of a user's profile row, when the row exists. -/
def creditsOf (db : DB) (uid : String) : Option ℚ :=
  (findProfile db.profiles uid).map Profile.credits

/-- Credits overwrite on `profiles`, the embedding of the update call
filtered by `user_id`. -/
def setCredits (ps : List Profile) (uid : String) (v : ℚ) : List Profile :=
  ps.map fun p => if p.user_id == uid then { p with credits := v } else p

/-- JavaScript `a || b` on optional strings: `b` when `a` is absent or empty. -/
def jsOr (a b : Option String) : Option String :=
  match a with
  | some s => if s == "" then b else some s
  | none => b

/-- Parsed JSON body of a complete-session call. -/
structure CompleteSessionRequest where
  session_id : String
  tutor_notes : Option String
  learner_notes : Option String
  deriving Repr, DecidableEq

/-- Fault flags for the two error-checked writes of complete-session. -/
structure CSFaults where
  update_session : Bool
  deduct : Bool
  deriving Repr, DecidableEq

/-- The complete-session handler after authentication: fetch the session,
check the caller participates and the session is not yet completed, check
the learner can pay, mark the session completed, move the credits, and
append the ledger rows.  A `deduct` fault is only logged: the handler
keeps going and still answers 200. -/
def completeSession (db : DB) (userId : String) (body : CompleteSessionRequest)
    (now : String) (f : CSFaults) : Response × DB :=
  if body.session_id == "" then
    (⟨400, "session_id is required"⟩, db)
  else
    match db.sessions.find? (fun s => s.id == body.session_id) with
    | none => (⟨404, "Session not found"⟩, db)
    | some session =>
      if session.tutor_id != userId && session.learner_id != userId then
        (⟨403, "You are not a participant in this session"⟩, db)
      else if session.status == "completed" then
        (⟨400, "Session is already completed"⟩, db)
      else
        let isAiSession := session.is_ai_session
        let creditCost : ℚ := if isAiSession then 1/2 else 1
        match findProfile db.profiles session.learner_id with
        | none => (⟨404, "Learner profile not found"⟩, db)
        | some learnerProfile =>
          if learnerProfile.credits < creditCost then
            (⟨400, "Insufficient credits"⟩, db)
          else if f.update_session then
            (⟨500, "Failed to update session"⟩, db)
          else
            let db1 : DB :=
              { db with sessions := db.sessions.map fun s =>
                  if s.id == body.session_id then
                    { s with status := "completed", completed_at := some now,
                             tutor_notes := jsOr body.tutor_notes s.tutor_notes,
                             learner_notes := jsOr body.learner_notes s.learner_notes }
                  else s }
            let db2 : DB :=
              if f.deduct then db1
              else { db1 with profiles := setCredits db1.profiles session.learner_id (learnerProfile.credits - creditCost) }
            let db3 : DB :=
              if !isAiSession then
                match findProfile db2.profiles session.tutor_id with
                | some tutorProfile =>
                    { db2 with profiles := setCredits db2.profiles session.tutor_id (tutorProfile.credits + 1) }
                | none => db2
              else db2
            let db4 : DB :=
              { db3 with credit_transactions := db3.credit_transactions ++
                  [{ user_id := session.learner_id,
                     amount := -creditCost,
                     type := if isAiSession then "ai_session" else "learning",
                     session_id := some body.session_id,
                     description := if isAiSession then "AI Learning Session"
                                    else "Human tutoring session" }] }
            let db5 : DB :=
              if !isAiSession then
                { db4 with credit_transactions := db4.credit_transactions ++
                    [{ user_id := session.tutor_id,
                       amount := 1,
                       type := "teaching",
                       session_id := some body.session_id,
                       description := "Teaching session completed" }] }
              else db4
            (⟨200, "Session completed and credits transferred"⟩, db5)

/-- JavaScript `[a, b].sort()` on a two-element array: swap exactly when
the first element compares greater. -/
def sortPair (a b : String) : String × String :=
  if b < a then (b, a) else (a, b)

/-- Row lookup on `conversations` by both participant columns. -/
def findConversation (cs : List Conversation) (p1 p2 : String) : Option Conversation :=
  cs.find? fun c => c.participant_1 == p1 && c.participant_2 == p2

/-- Parsed JSON body of a send-request call. -/
structure SendRequestBody where
  tutor_id : String
  skill_id : Option String
  message : String
  proposed_datetime : Option String
  deriving Repr, DecidableEq

/-- Fault flags for the two error-checked inserts of send-request. -/
structure SRFaults where
  insert_request : Bool
  insert_conversation : Bool
  deriving Repr, DecidableEq

/-- The send-request handler after authentication: validate the body,
refuse self-requests, check the caller holds at least 1 credit and the
tutor exists, insert the pending learning request, find or lazily create
the order-normalized conversation, and post the initial message.  A
failed conversation insert is only logged; the message step is skipped
and the handler still answers 201. -/
def sendRequest (db : DB) (userId : String) (body : SendRequestBody)
    (newRequestId newConvoId : String) (now : String) (f : SRFaults) :
    Response × DB :=
  if body.tutor_id == "" || body.message == "" then
    (⟨400, "tutor_id and message are required"⟩, db)
  else if body.tutor_id == userId then
    (⟨400, "You cannot send a request to yourself"⟩, db)
  else
    match findProfile db.profiles userId with
    | none => (⟨400, "Insufficient credits to send a request"⟩, db)
    | some learnerProfile =>
      if learnerProfile.credits < 1 then
        (⟨400, "Insufficient credits to send a request"⟩, db)
      else
        match findProfile db.profiles body.tutor_id with
        | none => (⟨404, "Tutor not found"⟩, db)
        | some _tutorProfile =>
          if f.insert_request then
            (⟨500, "Failed to create request"⟩, db)
          else
            let request : LearningRequest :=
              { id := newRequestId, learner_id := userId,
                tutor_id := body.tutor_id, skill_id := body.skill_id,
                message := body.message,
                proposed_datetime := body.proposed_datetime,
                status := "pending" }
            let db1 : DB :=
              { db with learning_requests := db.learning_requests ++ [request] }
            let sorted := sortPair userId body.tutor_id
            let existingConvo := findConversation db1.conversations sorted.1 sorted.2
            let conversationId : Option String :=
              match existingConvo with
              | some c => some c.id
              | none => if f.insert_conversation then none else some newConvoId
            let db2 : DB :=
              match existingConvo with
              | some _ => db1
              | none =>
                  if f.insert_conversation then db1
                  else { db1 with conversations := db1.conversations ++
                           [{ id := newConvoId, participant_1 := sorted.1,
                              participant_2 := sorted.2, last_message_at := none }] }
            let db3 : DB :=
              match conversationId with
              | none => db2
              | some cid =>
                  let dbm : DB :=
                    { db2 with messages := db2.messages ++
                        [{ conversation_id := cid, sender_id := userId,
                           content := "📚 Learning Request: " ++ body.message }] }
                  { dbm with conversations := dbm.conversations.map fun c =>
                      if c.id == cid then { c with last_message_at := some now } else c }
            (⟨201, "success"⟩, db3)

/-- Parsed JSON body of an accept-request call (duration already
defaulted to 60 by the destructuring). -/
structure AcceptRequestBody where
  request_id : String
  scheduled_at : String
  duration_minutes : Nat
  deriving Repr, DecidableEq

/-- Fault flag for the one error-checked insert of accept-request. -/
structure ARFaults where
  insert_session : Bool
  deriving Repr, DecidableEq

/-- The accept-request handler after authentication: fetch the request,
check the caller is its tutor and the request is still pending, mark it
accepted, insert the scheduled session, and post a confirmation message
into the existing conversation.  When the session insert fails the
request status update is not rolled back. -/
def acceptRequest (db : DB) (userId : String) (body : AcceptRequestBody)
    (newSessionId : String) (acceptMessage : String) (now : String)
    (f : ARFaults) : Response × DB :=
  if body.request_id == "" || body.scheduled_at == "" then
    (⟨400, "request_id and scheduled_at are required"⟩, db)
  else
    match db.learning_requests.find? (fun r => r.id == body.request_id) with
    | none => (⟨404, "Request not found"⟩, db)
    | some request =>
      if request.tutor_id != userId then
        (⟨403, "Only the tutor can accept this request"⟩, db)
      else if request.status != "pending" then
        (⟨400, "Request is no longer pending"⟩, db)
      else
        let db1 : DB :=
          { db with learning_requests := db.learning_requests.map fun r =>
              if r.id == body.request_id then { r with status := "accepted" } else r }
        if f.insert_session then
          (⟨500, "Failed to create session"⟩, db1)
        else
          let session : Session :=
            { id := newSessionId, request_id := some body.request_id,
              tutor_id := request.tutor_id, learner_id := request.learner_id,
              skill_id := request.skill_id, scheduled_at := body.scheduled_at,
              duration_minutes := body.duration_minutes, status := "scheduled",
              tutor_notes := none, learner_notes := none,
              is_ai_session := false, completed_at := none }
          let db2 : DB := { db1 with sessions := db1.sessions ++ [session] }
          let sorted := sortPair request.learner_id request.tutor_id
          let db3 : DB :=
            match findConversation db2.conversations sorted.1 sorted.2 with
            | none => db2
            | some convo =>
                let dbm : DB :=
                  { db2 with messages := db2.messages ++
                      [{ conversation_id := convo.id, sender_id := userId,
                         content := acceptMessage }] }
                { dbm with conversations := dbm.conversations.map fun c =>
                    if c.id == convo.id then { c with last_message_at := some now } else c }
          (⟨201, "success"⟩, db3)

/-- The `status` column of a session row, when the row exists. -/
def sessionStatus (db : DB) (sid : String) : Option String :=
  (db.sessions.find? (fun s => s.id == sid)).map Session.status

/-- Database used by the C1 counterexample: one human session whose tutor
and learner are the same user. -/
def selfPairDB : DB :=
  { profiles := [⟨"U", "Uri", 5⟩],
    learning_requests := [],
    sessions := [⟨"s1", none, "U", "U", none, "2026-03-01T10:00", 60, "scheduled",
                  none, none, false, none⟩],
    conversations := [], messages := [], credit_transactions := [] }

/-- Concrete database used to witness the handler theorems: two funded
profiles, one unfunded profile, a pending and an accepted request, and
one session in each relevant state. -/
def exDB : DB :=
  { profiles := [⟨"A", "Ana", 5⟩, ⟨"B", "Ben", 3⟩, ⟨"Z", "Zoe", 0⟩],
    learning_requests :=
      [⟨"q1", "A", "B", none, "teach me", none, "pending"⟩,
       ⟨"q2", "A", "B", none, "once more", none, "accepted"⟩],
    sessions :=
      [⟨"sA", none, "B", "A", none, "2026-03-01T10:00", 60, "scheduled", none, none, true, none⟩,
       ⟨"sH", none, "B", "A", none, "2026-03-02T10:00", 60, "scheduled", none, none, false, none⟩,
       ⟨"sD", none, "B", "A", none, "2026-03-03T10:00", 60, "completed", none, none, false, none⟩,
       ⟨"sC", none, "B", "A", none, "2026-03-04T10:00", 60, "cancelled", none, none, false, none⟩],
    conversations := [], messages := [], credit_transactions := [] }

/-- Mapping a function that does not change whether the predicate holds
commutes with `find?`. -/
theorem find?_map_of_pred_inv (l : List α) (g : α → α) (p : α → Bool)
    (hp : ∀ a, p (g a) = p a) :
    (l.map g).find? p = (l.find? p).map g := by
  induction l with
  | nil => rfl
  | cons a l ih =>
      by_cases h : p a = true
      · simp [List.find?_cons, hp, h]
      · simp only [Bool.not_eq_true] at h
        simp [List.find?_cons, hp, h, ih]

/-- Looking up a profile after a `setCredits` write: the row found is the
old row, with its credits overwritten when its `user_id` matches. -/
theorem findProfile_setCredits (ps : List Profile) (u w : String) (v : ℚ) :
    findProfile (setCredits ps u v) w =
      (findProfile ps w).map
        (fun p => if p.user_id == u then { p with credits := v } else p) := by
  unfold findProfile setCredits
  apply find?_map_of_pred_inv
  intro a
  by_cases h : a.user_id == u <;> simp [h]

/-- A `setCredits` write for one user leaves every other user's credits
unchanged. -/
theorem creditsOf_setCredits_ne (ps : List Profile) (u w : String)
    (v : ℚ) (hw : w ≠ u) :
    (findProfile (setCredits ps u v) w).map Profile.credits =
      (findProfile ps w).map Profile.credits := by
  rw [findProfile_setCredits]
  cases hfp : findProfile ps w with
  | none => rfl
  | some p =>
      have hpw : p.user_id = w := by
        have := List.find?_some hfp
        simpa [findProfile] using this
      simp [Option.map, hpw, hw]

/-- A `setCredits` write for a user who has a profile row sets that user's
visible credits to the written value. -/
theorem creditsOf_setCredits_self (ps : List Profile) (u : String) (v : ℚ)
    (p : Profile) (hfp : findProfile ps u = some p) :
    (findProfile (setCredits ps u v) u).map Profile.credits = some v := by
  rw [findProfile_setCredits, hfp]
  have hpu : p.user_id = u := by
    have := List.find?_some hfp
    simpa [findProfile] using this
  simp [Option.map, hpu]

/-- When no match is in the front list, `find?` over an append searches
the back list. -/
theorem find?_append_of_none (l₁ l₂ : List α) (p : α → Bool)
    (h : l₁.find? p = none) :
    (l₁ ++ l₂).find? p = l₂.find? p := by
  induction l₁ with
  | nil => rfl
  | cons a l ih =>
      rw [List.find?_cons] at h
      by_cases ha : p a = true
      · simp [ha] at h
      · simp only [Bool.not_eq_true] at ha
        rw [ha] at h
        simp [List.find?_cons, ha, ih h]

/-- JavaScript two-element sort is order-insensitive: both call orders
normalize a participant pair the same way. -/
theorem sortPair_comm (x y : String) : sortPair x y = sortPair y x := by
  unfold sortPair
  rcases lt_trichotomy x y with h | h | h
  · rw [if_neg (asymm h), if_pos h]
  · subst h
    simp [lt_irrefl]
  · rw [if_pos h, if_neg (asymm h)]

/-- The participant-pair columns survive the `last_message_at` touch-up. -/
theorem findConversation_touch (cs : List Conversation) (cid now p1 p2 : String) :
    findConversation
        (cs.map fun c => if c.id == cid then { c with last_message_at := some now } else c)
        p1 p2
      = (findConversation cs p1 p2).map
          (fun c => if c.id == cid then { c with last_message_at := some now } else c) := by
  unfold findConversation
  apply find?_map_of_pred_inv
  intro c
  by_cases h : c.id == cid <;> simp [h]

/-- send-request never writes to `profiles`, in any branch. -/
theorem sendRequest_profiles_frame (db : DB) (uid : String) (body : SendRequestBody)
    (rid cid now : String) (f : SRFaults) :
    (sendRequest db uid body rid cid now f).2.profiles = db.profiles := by
  simp only [sendRequest]
  repeat' split <;> try rfl

/-- When the normalized pair already has a conversation row, a successful
send-request call adds no conversation row: the table keeps its length. -/
theorem sendRequest_existing_conversation_reused (db : DB) (uid rid cid now : String)
    (body : SendRequestBody) (lp tp : Profile) (c : Conversation)
    (htid : body.tutor_id ≠ "") (hmsg : body.message ≠ "")
    (hself : body.tutor_id ≠ uid)
    (hlp : findProfile db.profiles uid = some lp) (hge : 1 ≤ lp.credits)
    (htp : findProfile db.profiles body.tutor_id = some tp)
    (hconv : findConversation db.conversations (sortPair uid body.tutor_id).1
        (sortPair uid body.tutor_id).2 = some c) :
    (sendRequest db uid body rid cid now ⟨false, false⟩).2.conversations.length
      = db.conversations.length := by
  have h1 : (body.tutor_id == "") = false := by simp [htid]
  have h2 : (body.message == "") = false := by simp [hmsg]
  have h3 : (body.tutor_id == uid) = false := by simp [hself]
  have hge' : ¬ (lp.credits < 1) := not_lt.mpr hge
  simp [sendRequest, h1, h2, h3, hlp, hge', htp, hconv]

/-- A successful send-request call leaves the normalized pair with a
conversation row, whether one already existed or was lazily created. -/
theorem sendRequest_conversation_exists (db : DB) (uid rid cid now : String)
    (body : SendRequestBody) (lp tp : Profile)
    (htid : body.tutor_id ≠ "") (hmsg : body.message ≠ "")
    (hself : body.tutor_id ≠ uid)
    (hlp : findProfile db.profiles uid = some lp) (hge : 1 ≤ lp.credits)
    (htp : findProfile db.profiles body.tutor_id = some tp) :
    ∃ c : Conversation,
      findConversation (sendRequest db uid body rid cid now ⟨false, false⟩).2.conversations
          (sortPair uid body.tutor_id).1 (sortPair uid body.tutor_id).2 = some c := by
  have h1 : (body.tutor_id == "") = false := by simp [htid]
  have h2 : (body.message == "") = false := by simp [hmsg]
  have h3 : (body.tutor_id == uid) = false := by simp [hself]
  have hge' : ¬ (lp.credits < 1) := not_lt.mpr hge
  rcases hconv : findConversation db.conversations (sortPair uid body.tutor_id).1
      (sortPair uid body.tutor_id).2 with _ | c
  · refine ⟨{ id := cid, participant_1 := (sortPair uid body.tutor_id).1,
              participant_2 := (sortPair uid body.tutor_id).2,
              last_message_at := some now }, ?_⟩
    simp only [sendRequest, h1, h2, h3, Bool.or_self, Bool.false_eq_true, if_false,
      hlp, hge', htp, hconv]
    rw [findConversation_touch]
    unfold findConversation
    rw [find?_append_of_none _ _ _ (by simpa [findConversation] using hconv)]
    simp
  · refine ⟨{ c with last_message_at := some now }, ?_⟩
    simp only [sendRequest, h1, h2, h3, Bool.or_self, Bool.false_eq_true, if_false,
      hlp, hge', htp, hconv]
    rw [findConversation_touch]
    rw [show findConversation db.conversations (sortPair uid body.tutor_id).1
        (sortPair uid body.tutor_id).2 = some c from hconv]
    simp

/-- Successful accept-request run: the response is 201, the request row is
re-written to status `accepted`, and exactly one scheduled session row is
appended; the trailing conversation/message step touches neither table. -/
theorem acceptRequest_success_parts (db : DB) (uid rid sched nsid msg now : String)
    (dur : Nat) (req : LearningRequest)
    (hrid : rid ≠ "") (hsched : sched ≠ "")
    (hfind : db.learning_requests.find? (fun r => r.id == rid) = some req)
    (htut : req.tutor_id = uid)
    (hpend : req.status = "pending") :
    (acceptRequest db uid ⟨rid, sched, dur⟩ nsid msg now ⟨false⟩).1.status = 201 ∧
    (acceptRequest db uid ⟨rid, sched, dur⟩ nsid msg now ⟨false⟩).2.learning_requests
      = db.learning_requests.map
          (fun r => if r.id == rid then { r with status := "accepted" } else r) ∧
    (acceptRequest db uid ⟨rid, sched, dur⟩ nsid msg now ⟨false⟩).2.sessions
      = db.sessions ++
        [{ id := nsid, request_id := some rid, tutor_id := req.tutor_id,
           learner_id := req.learner_id, skill_id := req.skill_id,
           scheduled_at := sched, duration_minutes := dur, status := "scheduled",
           tutor_notes := none, learner_notes := none, is_ai_session := false,
           completed_at := none }] := by
  have hrid' : (rid == "") = false := by simp [hrid]
  have hsched' : (sched == "") = false := by simp [hsched]
  have htut' : (req.tutor_id != uid) = false := by simp [htut]
  have hpend' : (req.status != "pending") = false := by simp [hpend]
  refine ⟨?_, ?_, ?_⟩ <;>
    · simp only [acceptRequest, hrid', hsched', Bool.or_self, Bool.false_eq_true,
        if_false, hfind, htut', hpend']
      try split <;> simp

/-- C1, counterexample to the claim as frozen: the sessions schema does not
force the tutor and the learner to be distinct users, and on a human session
whose tutor and learner coincide the complete-session call succeeds (200)
yet that user's balance is unchanged - the deduction of 1 is immediately
cancelled by the tutor payment of 1 - so the balance does not decrease by
exactly 1. -/
theorem completeSession_self_pair_cex :
    (completeSession selfPairDB "U" ⟨"s1", none, none⟩ "t0" ⟨false, false⟩).1.status = 200 ∧
    creditsOf (completeSession selfPairDB "U" ⟨"s1", none, none⟩ "t0" ⟨false, false⟩).2 "U"
      = creditsOf selfPairDB "U" := by
  have e1 : creditsOf (completeSession selfPairDB "U" ⟨"s1", none, none⟩ "t0" ⟨false, false⟩).2 "U"
      = some ((5 : ℚ) - 1 + 1) := rfl
  refine ⟨rfl, ?_⟩
  rw [e1, show ((5 : ℚ) - 1 + 1) = 5 by norm_num]
  rfl

/-- C1, amended: for every human (non-AI) session that is not completed,
whose tutor and learner are distinct users, and whose learner balance is at
least 1, a successful complete-session call by a participant decreases the
learner's balance by exactly 1, increases the tutor's balance by exactly 1,
and appends exactly two credit_transactions rows referencing the session:
amount -1 of type learning for the learner and amount +1 of type teaching
for the tutor. -/
theorem completeSession_human_transfers_one (db : DB) (uid sid now : String)
    (tn ln : Option String) (session : Session) (lp tp : Profile)
    (hsid : sid ≠ "")
    (hfind : db.sessions.find? (fun s => s.id == sid) = some session)
    (hai : session.is_ai_session = false)
    (hstatus : session.status ≠ "completed")
    (hpart : session.tutor_id = uid ∨ session.learner_id = uid)
    (hne : session.tutor_id ≠ session.learner_id)
    (hlp : findProfile db.profiles session.learner_id = some lp)
    (htp : findProfile db.profiles session.tutor_id = some tp)
    (hge : 1 ≤ lp.credits) :
    (completeSession db uid ⟨sid, tn, ln⟩ now ⟨false, false⟩).1.status = 200 ∧
    creditsOf (completeSession db uid ⟨sid, tn, ln⟩ now ⟨false, false⟩).2 session.learner_id
      = some (lp.credits - 1) ∧
    creditsOf (completeSession db uid ⟨sid, tn, ln⟩ now ⟨false, false⟩).2 session.tutor_id
      = some (tp.credits + 1) ∧
    (completeSession db uid ⟨sid, tn, ln⟩ now ⟨false, false⟩).2.credit_transactions
      = db.credit_transactions ++
        [{ user_id := session.learner_id, amount := -1, type := "learning",
           session_id := some sid, description := "Human tutoring session" },
         { user_id := session.tutor_id, amount := 1, type := "teaching",
           session_id := some sid, description := "Teaching session completed" }] := by
  have hsid' : (sid == "") = false := by simp [hsid]
  have hstat' : (session.status == "completed") = false := by simp [hstatus]
  have hpart' : (session.tutor_id != uid && session.learner_id != uid) = false := by
    rcases hpart with h | h <;> simp [h]
  have hge' : ¬ (lp.credits < 1) := not_lt.mpr hge
  have htpu : tp.user_id = session.tutor_id := by
    have := List.find?_some htp
    simpa [findProfile] using this
  have htp2 : findProfile (setCredits db.profiles session.learner_id (lp.credits - 1))
      session.tutor_id = some tp := by
    rw [findProfile_setCredits, htp]
    simp [Option.map, htpu, hne]
  have hred : completeSession db uid ⟨sid, tn, ln⟩ now ⟨false, false⟩ =
      (⟨200, "Session completed and credits transferred"⟩,
        { db with
            profiles := setCredits
              (setCredits db.profiles session.learner_id (lp.credits - 1))
              session.tutor_id (tp.credits + 1),
            sessions := db.sessions.map fun s =>
              if s.id == sid then
                { s with status := "completed", completed_at := some now,
                         tutor_notes := jsOr tn s.tutor_notes,
                         learner_notes := jsOr ln s.learner_notes }
              else s,
            credit_transactions := db.credit_transactions ++
              [{ user_id := session.learner_id, amount := -1, type := "learning",
                 session_id := some sid, description := "Human tutoring session" },
               { user_id := session.tutor_id, amount := 1, type := "teaching",
                 session_id := some sid, description := "Teaching session completed" }] }) := by
    simp [-one_div, completeSession, hsid', hfind, hpart', hstat', hai, hlp, hge', htp2]
  refine ⟨?_, ?_, ?_, ?_⟩
  · rw [hred]
  · rw [hred]
    show (findProfile _ _).map Profile.credits = _
    rw [creditsOf_setCredits_ne _ _ _ _ (Ne.symm hne)]
    exact creditsOf_setCredits_self db.profiles session.learner_id _ lp hlp
  · rw [hred]
    exact creditsOf_setCredits_self _ session.tutor_id _ tp htp2
  · rw [hred]

/-- Concrete run of the amended C1 theorem on the example database. -/
theorem completeSession_human_transfers_one_witness :
    (completeSession exDB "A" ⟨"sH", none, none⟩ "t0" ⟨false, false⟩).1.status = 200 ∧
    creditsOf (completeSession exDB "A" ⟨"sH", none, none⟩ "t0" ⟨false, false⟩).2 "A"
      = some (5 - 1) ∧
    creditsOf (completeSession exDB "A" ⟨"sH", none, none⟩ "t0" ⟨false, false⟩).2 "B"
      = some (3 + 1) ∧
    (completeSession exDB "A" ⟨"sH", none, none⟩ "t0" ⟨false, false⟩).2.credit_transactions
      = exDB.credit_transactions ++
        [{ user_id := "A", amount := -1, type := "learning",
           session_id := some "sH", description := "Human tutoring session" },
         { user_id := "B", amount := 1, type := "teaching",
           session_id := some "sH", description := "Teaching session completed" }] := by
  obtain ⟨h1, h2, h3, h4⟩ := completeSession_human_transfers_one exDB "A" "sH" "t0" none none
    ⟨"sH", none, "B", "A", none, "2026-03-02T10:00", 60, "scheduled", none, none, false, none⟩
    ⟨"A", "Ana", 5⟩ ⟨"B", "Ben", 3⟩
    (by decide) rfl rfl (by decide) (Or.inr rfl) (by decide) rfl rfl (by decide)
  exact ⟨h1, h2, h3, h4⟩

/-- C2: for every AI session that is not completed and whose learner
balance is at least 0.5, a successful complete-session call by a
participant decreases the learner's balance by exactly 0.5, leaves every
other profile's balance (the tutor's included, when distinct) unchanged,
and appends exactly one credit_transactions row: amount -0.5 of type
ai_session referencing the session. -/
theorem completeSession_ai_deducts_half (db : DB) (uid sid now : String)
    (tn ln : Option String) (session : Session) (lp : Profile)
    (hsid : sid ≠ "")
    (hfind : db.sessions.find? (fun s => s.id == sid) = some session)
    (hai : session.is_ai_session = true)
    (hstatus : session.status ≠ "completed")
    (hpart : session.tutor_id = uid ∨ session.learner_id = uid)
    (hlp : findProfile db.profiles session.learner_id = some lp)
    (hge : 1/2 ≤ lp.credits) :
    (completeSession db uid ⟨sid, tn, ln⟩ now ⟨false, false⟩).1.status = 200 ∧
    creditsOf (completeSession db uid ⟨sid, tn, ln⟩ now ⟨false, false⟩).2 session.learner_id
      = some (lp.credits - 1/2) ∧
    (∀ w, w ≠ session.learner_id →
      creditsOf (completeSession db uid ⟨sid, tn, ln⟩ now ⟨false, false⟩).2 w = creditsOf db w) ∧
    (completeSession db uid ⟨sid, tn, ln⟩ now ⟨false, false⟩).2.credit_transactions
      = db.credit_transactions ++
        [{ user_id := session.learner_id, amount := -(1/2), type := "ai_session",
           session_id := some sid, description := "AI Learning Session" }] := by
  have hsid' : (sid == "") = false := by simp [hsid]
  have hstat' : (session.status == "completed") = false := by simp [hstatus]
  have hpart' : (session.tutor_id != uid && session.learner_id != uid) = false := by
    rcases hpart with h | h <;> simp [h]
  have hge' : ¬ (lp.credits < 1/2) := not_lt.mpr hge
  have hred : completeSession db uid ⟨sid, tn, ln⟩ now ⟨false, false⟩ =
      (⟨200, "Session completed and credits transferred"⟩,
        { db with
            profiles := setCredits db.profiles session.learner_id (lp.credits - 1/2),
            sessions := db.sessions.map fun s =>
              if s.id == sid then
                { s with status := "completed", completed_at := some now,
                         tutor_notes := jsOr tn s.tutor_notes,
                         learner_notes := jsOr ln s.learner_notes }
              else s,
            credit_transactions := db.credit_transactions ++
              [{ user_id := session.learner_id, amount := -(1/2), type := "ai_session",
                 session_id := some sid, description := "AI Learning Session" }] }) := by
    simp [-one_div, completeSession, hsid', hfind, hpart', hstat', hai, hlp, hge']
  refine ⟨?_, ?_, ?_, ?_⟩
  · rw [hred]
  · rw [hred]
    exact creditsOf_setCredits_self db.profiles session.learner_id _ lp hlp
  · intro w hw
    rw [hred]
    exact creditsOf_setCredits_ne db.profiles session.learner_id w _ hw
  · rw [hred]

/-- Concrete run of the C2 theorem on the example database. -/
theorem completeSession_ai_deducts_half_witness :
    (completeSession exDB "A" ⟨"sA", none, none⟩ "t0" ⟨false, false⟩).1.status = 200 ∧
    creditsOf (completeSession exDB "A" ⟨"sA", none, none⟩ "t0" ⟨false, false⟩).2 "A"
      = some (5 - 1/2) ∧
    creditsOf (completeSession exDB "A" ⟨"sA", none, none⟩ "t0" ⟨false, false⟩).2 "B"
      = creditsOf exDB "B" ∧
    (completeSession exDB "A" ⟨"sA", none, none⟩ "t0" ⟨false, false⟩).2.credit_transactions
      = exDB.credit_transactions ++
        [{ user_id := "A", amount := -(1/2), type := "ai_session",
           session_id := some "sA", description := "AI Learning Session" }] := by
  obtain ⟨h1, h2, h3, h4⟩ := completeSession_ai_deducts_half exDB "A" "sA" "t0" none none
    ⟨"sA", none, "B", "A", none, "2026-03-01T10:00", 60, "scheduled", none, none, true, none⟩
    ⟨"A", "Ana", 5⟩
    (by decide) rfl rfl (by decide) (Or.inr rfl) rfl (by norm_num)
  exact ⟨h1, h2, h3 "B" (by decide), h4⟩

/-- C3: an accept-request call by the tutor on a request whose status is
not pending fails with 400 (Request is no longer pending) and returns the
database unchanged; consequently - second conjunct - after a request is
accepted once, a second accept attempt on the resulting database fails the
same way and changes nothing further, so a request cannot be accepted
twice. -/
theorem acceptRequest_not_pending_rejected (db : DB) (uid rid sched nsid msg now : String)
    (dur : Nat) (f : ARFaults) (req : LearningRequest)
    (hrid : rid ≠ "") (hsched : sched ≠ "")
    (hfind : db.learning_requests.find? (fun r => r.id == rid) = some req)
    (htut : req.tutor_id = uid)
    (hstat : req.status ≠ "pending") :
    acceptRequest db uid ⟨rid, sched, dur⟩ nsid msg now f
      = (⟨400, "Request is no longer pending"⟩, db) ∧
    (∀ (db₀ : DB) (uid₀ rid₀ sched₀ nsid₀ msg₀ now₀ sched₁ nsid₁ msg₁ now₁ : String)
       (dur₀ dur₁ : Nat) (f₁ : ARFaults) (req₀ : LearningRequest),
      rid₀ ≠ "" → sched₀ ≠ "" → sched₁ ≠ "" →
      db₀.learning_requests.find? (fun r => r.id == rid₀) = some req₀ →
      req₀.tutor_id = uid₀ → req₀.status = "pending" →
      acceptRequest (acceptRequest db₀ uid₀ ⟨rid₀, sched₀, dur₀⟩ nsid₀ msg₀ now₀ ⟨false⟩).2
          uid₀ ⟨rid₀, sched₁, dur₁⟩ nsid₁ msg₁ now₁ f₁
        = (⟨400, "Request is no longer pending"⟩,
           (acceptRequest db₀ uid₀ ⟨rid₀, sched₀, dur₀⟩ nsid₀ msg₀ now₀ ⟨false⟩).2)) := by
  have hrid' : (rid == "") = false := by simp [hrid]
  have hsched' : (sched == "") = false := by simp [hsched]
  have htut' : (req.tutor_id != uid) = false := by simp [htut]
  have hstat' : (req.status != "pending") = true := by simp [hstat]
  constructor
  · simp [acceptRequest, hrid', hsched', hfind, htut', hstat']
  · intro db₀ uid₀ rid₀ sched₀ nsid₀ msg₀ now₀ sched₁ nsid₁ msg₁ now₁ dur₀ dur₁ f₁ req₀
      hr₀ hs₀ hs₁ hfind₀ htut₀ hpend₀
    obtain ⟨-, h2, -⟩ := acceptRequest_success_parts db₀ uid₀ rid₀ sched₀ nsid₀ msg₀ now₀
      dur₀ req₀ hr₀ hs₀ hfind₀ htut₀ hpend₀
    have hreq₀ : req₀.id = rid₀ := by
      have := List.find?_some hfind₀
      simpa using this
    have hidinv : ∀ r : LearningRequest,
        (((fun r : LearningRequest =>
            if r.id == rid₀ then { r with status := "accepted" } else r) r).id == rid₀)
          = (r.id == rid₀) := by
      intro r
      by_cases h : r.id == rid₀ <;> simp [h]
    have hfind₁ : (acceptRequest db₀ uid₀ ⟨rid₀, sched₀, dur₀⟩ nsid₀ msg₀
          now₀ ⟨false⟩).2.learning_requests.find? (fun r => r.id == rid₀)
        = some { req₀ with status := "accepted" } := by
      rw [h2, find?_map_of_pred_inv _ _ _ hidinv, hfind₀]
      simp [hreq₀]
    have hr₀' : (rid₀ == "") = false := by simp [hr₀]
    have hs₁' : (sched₁ == "") = false := by simp [hs₁]
    have htut₁ : (({ req₀ with status := "accepted" } : LearningRequest).tutor_id != uid₀)
        = false := by simp [htut₀]
    have hstat₁ : (({ req₀ with status := "accepted" } : LearningRequest).status != "pending")
        = true := rfl
    generalize hg : (acceptRequest db₀ uid₀ ⟨rid₀, sched₀, dur₀⟩ nsid₀ msg₀ now₀
        ⟨false⟩).2 = dbp at hfind₁ ⊢
    simp [acceptRequest, hr₀', hs₁', hfind₁, htut₁, hstat₁]

/-- Concrete run of the C3 theorem: the already-accepted request is
rejected, and accepting the pending request once makes the second attempt
fail. -/
theorem acceptRequest_not_pending_rejected_witness :
    acceptRequest exDB "B" ⟨"q2", "2026-04-01T10:00", 60⟩ "ns1" "m" "t1" ⟨false⟩
      = (⟨400, "Request is no longer pending"⟩, exDB) ∧
    acceptRequest
        (acceptRequest exDB "B" ⟨"q1", "2026-04-01T10:00", 60⟩ "ns0" "m0" "t0" ⟨false⟩).2
        "B" ⟨"q1", "2026-04-02T10:00", 45⟩ "ns2" "m2" "t2" ⟨false⟩
      = (⟨400, "Request is no longer pending"⟩,
         (acceptRequest exDB "B" ⟨"q1", "2026-04-01T10:00", 60⟩ "ns0" "m0" "t0" ⟨false⟩).2) := by
  obtain ⟨h1, h2⟩ := acceptRequest_not_pending_rejected exDB "B" "q2" "2026-04-01T10:00"
    "ns1" "m" "t1" 60 ⟨false⟩ ⟨"q2", "A", "B", none, "once more", none, "accepted"⟩
    (by decide) (by decide) rfl rfl (by decide)
  exact ⟨h1, h2 exDB "B" "q1" "2026-04-01T10:00" "ns0" "m0" "t0" "2026-04-02T10:00"
    "ns2" "m2" "t2" 60 45 ⟨false⟩ ⟨"q1", "A", "B", none, "teach me", none, "pending"⟩
    (by decide) (by decide) (by decide) rfl rfl rfl⟩

/-- C4: a send-request call (well-formed and not to self) by a caller
whose profile holds fewer than 1 credit is rejected with 400 (Insufficient
credits to send a request) and the database is returned unchanged, so no
learning request, conversation or message row is created. -/
theorem sendRequest_insufficient_credits_rejected (db : DB) (uid rid cid now : String)
    (body : SendRequestBody) (f : SRFaults) (lp : Profile)
    (htid : body.tutor_id ≠ "") (hmsg : body.message ≠ "")
    (hself : body.tutor_id ≠ uid)
    (hlp : findProfile db.profiles uid = some lp)
    (hcred : lp.credits < 1) :
    sendRequest db uid body rid cid now f
      = (⟨400, "Insufficient credits to send a request"⟩, db) := by
  have h1 : (body.tutor_id == "") = false := by simp [htid]
  have h2 : (body.message == "") = false := by simp [hmsg]
  have h3 : (body.tutor_id == uid) = false := by simp [hself]
  simp [sendRequest, h1, h2, h3, hlp, hcred]

/-- Concrete run of the C4 theorem with the zero-credit caller. -/
theorem sendRequest_insufficient_credits_rejected_witness :
    sendRequest exDB "Z" ⟨"B", none, "hi", none⟩ "r0" "c0" "t0" ⟨false, false⟩
      = (⟨400, "Insufficient credits to send a request"⟩, exDB) :=
  sendRequest_insufficient_credits_rejected exDB "Z" "r0" "c0" "t0"
    ⟨"B", none, "hi", none⟩ ⟨false, false⟩ ⟨"Z", "Zoe", 0⟩
    (by decide) (by decide) (by decide) rfl (by decide)

/-- C5: the conversation between two distinct users is unique regardless
of which side initiates: the JavaScript two-element sort normalizing the
pair is symmetric, and after a send-request from A to B, a send-request
from B to A finds the existing conversation row for the normalized pair
instead of inserting a second one, leaving the conversations table at the
same length. -/
theorem conversation_unique_regardless_of_order (db : DB) (a b : String)
    (sk1 sk2 pd1 pd2 : Option String) (m1 m2 r1 c1 t1 r2 c2 t2 : String)
    (pa pb : Profile)
    (hne : a ≠ b) (ha : a ≠ "") (hb : b ≠ "")
    (hm1 : m1 ≠ "") (hm2 : m2 ≠ "")
    (hpa : findProfile db.profiles a = some pa) (hga : 1 ≤ pa.credits)
    (hpb : findProfile db.profiles b = some pb) (hgb : 1 ≤ pb.credits) :
    (∀ x y : String, sortPair x y = sortPair y x) ∧
    (sendRequest (sendRequest db a ⟨b, sk1, m1, pd1⟩ r1 c1 t1 ⟨false, false⟩).2
        b ⟨a, sk2, m2, pd2⟩ r2 c2 t2 ⟨false, false⟩).2.conversations.length
      = (sendRequest db a ⟨b, sk1, m1, pd1⟩ r1 c1 t1 ⟨false, false⟩).2.conversations.length := by
  refine ⟨sortPair_comm, ?_⟩
  obtain ⟨c, hc⟩ := sendRequest_conversation_exists db a r1 c1 t1 ⟨b, sk1, m1, pd1⟩
    pa pb hb hm1 (Ne.symm hne) hpa hga hpb
  have hpb1 : findProfile
      (sendRequest db a ⟨b, sk1, m1, pd1⟩ r1 c1 t1 ⟨false, false⟩).2.profiles b
        = some pb := by
    rw [sendRequest_profiles_frame]
    exact hpb
  have hpa1 : findProfile
      (sendRequest db a ⟨b, sk1, m1, pd1⟩ r1 c1 t1 ⟨false, false⟩).2.profiles a
        = some pa := by
    rw [sendRequest_profiles_frame]
    exact hpa
  have hconv1 : findConversation
      (sendRequest db a ⟨b, sk1, m1, pd1⟩ r1 c1 t1 ⟨false, false⟩).2.conversations
      (sortPair b a).1 (sortPair b a).2 = some c := by
    rw [sortPair_comm b a]
    exact hc
  exact sendRequest_existing_conversation_reused _ b r2 c2 t2 ⟨a, sk2, m2, pd2⟩
    pb pa c ha hm2 hne hpb1 hgb hpa1 hconv1

/-- Concrete run of the C5 theorem: A contacts B, then B contacts A. -/
theorem conversation_unique_regardless_of_order_witness :
    sortPair "A" "B" = sortPair "B" "A" ∧
    (sendRequest (sendRequest exDB "A" ⟨"B", none, "hello", none⟩ "r1" "c1" "t1"
          ⟨false, false⟩).2
        "B" ⟨"A", none, "hey", none⟩ "r2" "c2" "t2" ⟨false, false⟩).2.conversations.length
      = (sendRequest exDB "A" ⟨"B", none, "hello", none⟩ "r1" "c1" "t1"
          ⟨false, false⟩).2.conversations.length := by
  obtain ⟨hs, hl⟩ := conversation_unique_regardless_of_order exDB "A" "B"
    none none none none "hello" "hey" "r1" "c1" "t1" "r2" "c2" "t2"
    ⟨"A", "Ana", 5⟩ ⟨"B", "Ben", 3⟩
    (by decide) (by decide) (by decide) (by decide) (by decide)
    rfl (by decide) rfl (by decide)
  exact ⟨hs "A" "B", hl⟩

/-- C6: when the write that deducts the learner's credits fails after the
session has been marked completed, the failure is only logged: the
response is still 200, the session row stays in status completed, and the
ledger rows for the session are still appended (for an AI session the
profiles table is then untouched entirely). -/
theorem completeSession_deduct_fault_not_rolled_back (db : DB) (uid sid now : String)
    (tn ln : Option String) (session : Session) (lp tp : Profile)
    (hsid : sid ≠ "")
    (hfind : db.sessions.find? (fun s => s.id == sid) = some session)
    (hstatus : session.status ≠ "completed")
    (hpart : session.tutor_id = uid ∨ session.learner_id = uid)
    (hlp : findProfile db.profiles session.learner_id = some lp)
    (htp : session.is_ai_session = false →
      findProfile db.profiles session.tutor_id = some tp)
    (hge : (if session.is_ai_session then 1/2 else 1) ≤ lp.credits) :
    (completeSession db uid ⟨sid, tn, ln⟩ now ⟨false, true⟩).1.status = 200 ∧
    sessionStatus (completeSession db uid ⟨sid, tn, ln⟩ now ⟨false, true⟩).2 sid
      = some "completed" ∧
    (completeSession db uid ⟨sid, tn, ln⟩ now ⟨false, true⟩).2.credit_transactions
      = db.credit_transactions ++
        ({ user_id := session.learner_id,
           amount := -(if session.is_ai_session then 1/2 else 1),
           type := if session.is_ai_session then "ai_session" else "learning",
           session_id := some sid,
           description := if session.is_ai_session then "AI Learning Session"
                          else "Human tutoring session" } ::
         (if session.is_ai_session then []
          else [{ user_id := session.tutor_id, amount := 1, type := "teaching",
                  session_id := some sid,
                  description := "Teaching session completed" }])) ∧
    (session.is_ai_session = true →
      (completeSession db uid ⟨sid, tn, ln⟩ now ⟨false, true⟩).2.profiles = db.profiles) := by
  have hsid' : (sid == "") = false := by simp [hsid]
  have hstat' : (session.status == "completed") = false := by simp [hstatus]
  have hpart' : (session.tutor_id != uid && session.learner_id != uid) = false := by
    rcases hpart with h | h <;> simp [h]
  have hideq : session.id = sid := by
    have := List.find?_some hfind
    simpa using this
  have hidinv : ∀ s : Session,
      (((fun s : Session =>
          if s.id == sid then
            { s with status := "completed", completed_at := some now,
                     tutor_notes := jsOr tn s.tutor_notes,
                     learner_notes := jsOr ln s.learner_notes }
          else s) s).id == sid) = (s.id == sid) := by
    intro s
    by_cases h : s.id == sid <;> simp [h]
  cases hai : session.is_ai_session with
  | true =>
      have hge' : ¬ (lp.credits < 1/2) := by
        rw [hai] at hge; simpa using not_lt.mpr hge
      have hred : completeSession db uid ⟨sid, tn, ln⟩ now ⟨false, true⟩ =
          (⟨200, "Session completed and credits transferred"⟩,
            { db with
                sessions := db.sessions.map fun s =>
                  if s.id == sid then
                    { s with status := "completed", completed_at := some now,
                             tutor_notes := jsOr tn s.tutor_notes,
                             learner_notes := jsOr ln s.learner_notes }
                  else s,
                credit_transactions := db.credit_transactions ++
                  [{ user_id := session.learner_id, amount := -(1/2),
                     type := "ai_session", session_id := some sid,
                     description := "AI Learning Session" }] }) := by
        simp [-one_div, completeSession, hsid', hfind, hpart', hstat', hai, hlp, hge']
      refine ⟨?_, ?_, ?_, ?_⟩
      · rw [hred]
      · rw [hred]
        show ((db.sessions.map _).find? _).map _ = _
        rw [find?_map_of_pred_inv _ _ _ hidinv, hfind]
        simp [hideq]
      · rw [hred]
        simp [hai]
      · intro _
        rw [hred]
  | false =>
      have hge' : ¬ (lp.credits < 1) := by
        rw [hai] at hge; simpa using not_lt.mpr hge
      have htp' := htp hai
      have hred : completeSession db uid ⟨sid, tn, ln⟩ now ⟨false, true⟩ =
          (⟨200, "Session completed and credits transferred"⟩,
            { db with
                profiles := setCredits db.profiles session.tutor_id (tp.credits + 1),
                sessions := db.sessions.map fun s =>
                  if s.id == sid then
                    { s with status := "completed", completed_at := some now,
                             tutor_notes := jsOr tn s.tutor_notes,
                             learner_notes := jsOr ln s.learner_notes }
                  else s,
                credit_transactions := db.credit_transactions ++
                  [{ user_id := session.learner_id, amount := -1,
                     type := "learning", session_id := some sid,
                     description := "Human tutoring session" },
                   { user_id := session.tutor_id, amount := 1, type := "teaching",
                     session_id := some sid,
                     description := "Teaching session completed" }] }) := by
        simp [-one_div, completeSession, hsid', hfind, hpart', hstat', hai, hlp, hge', htp']
      refine ⟨?_, ?_, ?_, ?_⟩
      · rw [hred]
      · rw [hred]
        show ((db.sessions.map _).find? _).map _ = _
        rw [find?_map_of_pred_inv _ _ _ hidinv, hfind]
        simp [hideq]
      · rw [hred]
        simp [hai]
      · intro h
        exact absurd h (by simp)

/-- Concrete run of the C6 theorem with the deduction write failing. -/
theorem completeSession_deduct_fault_not_rolled_back_witness :
    (completeSession exDB "A" ⟨"sH", none, none⟩ "t0" ⟨false, true⟩).1.status = 200 ∧
    sessionStatus (completeSession exDB "A" ⟨"sH", none, none⟩ "t0" ⟨false, true⟩).2 "sH"
      = some "completed" := by
  obtain ⟨h1, h2, h3, h4⟩ := completeSession_deduct_fault_not_rolled_back exDB "A" "sH" "t0"
    none none
    ⟨"sH", none, "B", "A", none, "2026-03-02T10:00", 60, "scheduled", none, none, false, none⟩
    ⟨"A", "Ana", 5⟩ ⟨"B", "Ben", 3⟩
    (by decide) rfl (by decide) (Or.inr rfl) rfl (fun _ => rfl) (by decide)
  exact ⟨h1, h2⟩

/-- C7: a successful accept-request call by the tutor of a pending
request returns 201, sets the request's status to accepted, and appends
exactly one session row whose request_id is the request and whose tutor,
learner and skill are copied from it, in status scheduled. -/
theorem acceptRequest_pending_creates_session (db : DB)
    (uid rid sched nsid msg now : String) (dur : Nat) (req : LearningRequest)
    (hrid : rid ≠ "") (hsched : sched ≠ "")
    (hfind : db.learning_requests.find? (fun r => r.id == rid) = some req)
    (htut : req.tutor_id = uid)
    (hpend : req.status = "pending") :
    (acceptRequest db uid ⟨rid, sched, dur⟩ nsid msg now ⟨false⟩).1.status = 201 ∧
    (acceptRequest db uid ⟨rid, sched, dur⟩ nsid msg now ⟨false⟩).2.learning_requests.find?
        (fun r => r.id == rid) = some { req with status := "accepted" } ∧
    (acceptRequest db uid ⟨rid, sched, dur⟩ nsid msg now ⟨false⟩).2.sessions
      = db.sessions ++
        [{ id := nsid, request_id := some rid, tutor_id := req.tutor_id,
           learner_id := req.learner_id, skill_id := req.skill_id,
           scheduled_at := sched, duration_minutes := dur, status := "scheduled",
           tutor_notes := none, learner_notes := none, is_ai_session := false,
           completed_at := none }] := by
  obtain ⟨h1, h2, h3⟩ := acceptRequest_success_parts db uid rid sched nsid msg now dur req
    hrid hsched hfind htut hpend
  have hreq : req.id = rid := by
    have := List.find?_some hfind
    simpa using this
  refine ⟨h1, ?_, h3⟩
  rw [h2]
  have hidinv : ∀ r : LearningRequest,
      (((fun r : LearningRequest =>
          if r.id == rid then { r with status := "accepted" } else r) r).id == rid)
        = (r.id == rid) := by
    intro r
    by_cases h : r.id == rid <;> simp [h]
  rw [find?_map_of_pred_inv _ _ _ hidinv, hfind]
  simp [hreq]

/-- Concrete run of the C7 theorem on the pending request. -/
theorem acceptRequest_pending_creates_session_witness :
    (acceptRequest exDB "B" ⟨"q1", "2026-04-01T10:00", 60⟩ "ns1" "m" "t1" ⟨false⟩).1.status
      = 201 ∧
    (acceptRequest exDB "B" ⟨"q1", "2026-04-01T10:00", 60⟩ "ns1" "m" "t1"
        ⟨false⟩).2.learning_requests.find? (fun r => r.id == "q1")
      = some ⟨"q1", "A", "B", none, "teach me", none, "accepted"⟩ ∧
    (acceptRequest exDB "B" ⟨"q1", "2026-04-01T10:00", 60⟩ "ns1" "m" "t1" ⟨false⟩).2.sessions
      = exDB.sessions ++
        [⟨"ns1", some "q1", "B", "A", none, "2026-04-01T10:00", 60, "scheduled",
          none, none, false, none⟩] := by
  obtain ⟨h1, h2, h3⟩ := acceptRequest_pending_creates_session exDB "B" "q1"
    "2026-04-01T10:00" "ns1" "m" "t1" 60 ⟨"q1", "A", "B", none, "teach me", none, "pending"⟩
    (by decide) (by decide) rfl rfl rfl
  exact ⟨h1, h2, h3⟩

/-- C8: send-request never changes any profile's credit balance, in any
branch and for any caller (first conjunct, quantified over all calls
against the same database); and a call naming a tutor with no profile row
fails with 404 (Tutor not found) with the database unchanged (second
conjunct). -/
theorem sendRequest_no_balance_change_and_tutor_required (db : DB)
    (uid rid cid now : String) (body : SendRequestBody) (f : SRFaults) (lp : Profile)
    (htid : body.tutor_id ≠ "") (hmsg : body.message ≠ "")
    (hself : body.tutor_id ≠ uid)
    (hlp : findProfile db.profiles uid = some lp)
    (hge : 1 ≤ lp.credits)
    (htut : findProfile db.profiles body.tutor_id = none) :
    (∀ (uid' : String) (body' : SendRequestBody) (rid' cid' now' : String) (f' : SRFaults),
      creditsOf (sendRequest db uid' body' rid' cid' now' f').2 = creditsOf db) ∧
    sendRequest db uid body rid cid now f = (⟨404, "Tutor not found"⟩, db) := by
  have h1 : (body.tutor_id == "") = false := by simp [htid]
  have h2 : (body.message == "") = false := by simp [hmsg]
  have h3 : (body.tutor_id == uid) = false := by simp [hself]
  have hge' : ¬ (lp.credits < 1) := not_lt.mpr hge
  constructor
  · intro uid' body' rid' cid' now' f'
    funext w
    unfold creditsOf
    rw [sendRequest_profiles_frame]
  · simp [sendRequest, h1, h2, h3, hlp, hge', htut]

/-- Concrete run of the C8 theorem: a successful call preserves all
balances and the unknown tutor is refused. -/
theorem sendRequest_no_balance_change_and_tutor_required_witness :
    creditsOf (sendRequest exDB "A" ⟨"B", none, "hello", none⟩ "r1" "c1" "t1"
        ⟨false, false⟩).2 = creditsOf exDB ∧
    sendRequest exDB "A" ⟨"X", none, "hello", none⟩ "r1" "c1" "t1" ⟨false, false⟩
      = (⟨404, "Tutor not found"⟩, exDB) := by
  obtain ⟨h1, h2⟩ := sendRequest_no_balance_change_and_tutor_required exDB "A" "r1" "c1" "t1"
    ⟨"X", none, "hello", none⟩ ⟨false, false⟩ ⟨"A", "Ana", 5⟩
    (by decide) (by decide) (by decide) rfl (by decide) rfl
  exact ⟨h1 "A" ⟨"B", none, "hello", none⟩ "r1" "c1" "t1" ⟨false, false⟩, h2⟩

/-- C9: a send-request call naming the caller themselves as tutor is
rejected with 400 (You cannot send a request to yourself) and the database
is returned unchanged, so no row is created in any table. -/
theorem sendRequest_to_self_rejected (db : DB) (uid rid cid now : String)
    (body : SendRequestBody) (f : SRFaults)
    (huid : uid ≠ "") (hmsg : body.message ≠ "")
    (hself : body.tutor_id = uid) :
    sendRequest db uid body rid cid now f
      = (⟨400, "You cannot send a request to yourself"⟩, db) := by
  have h1 : (body.tutor_id == "") = false := by simp [hself, huid]
  have h2 : (body.message == "") = false := by simp [hmsg]
  have h3 : (body.tutor_id == uid) = true := by simp [hself]
  simp [sendRequest, h1, h2, h3]

/-- Concrete run of the C9 theorem. -/
theorem sendRequest_to_self_rejected_witness :
    sendRequest exDB "A" ⟨"A", none, "hello", none⟩ "r1" "c1" "t1" ⟨false, false⟩
      = (⟨400, "You cannot send a request to yourself"⟩, exDB) :=
  sendRequest_to_self_rejected exDB "A" "r1" "c1" "t1" ⟨"A", none, "hello", none⟩
    ⟨false, false⟩ (by decide) (by decide) rfl

/-- C10: complete-session rejects a session as already completed exactly
when its status equals completed; for a session in any other status -
cancelled and in_progress included - a call by a participant whose learner
can pay proceeds: it returns 200, marks the session completed, and appends
the learner's debit ledger row, so even a cancelled session is completed
and charged. -/
theorem completeSession_gate_only_completed (db : DB) (uid sid now : String)
    (tn ln : Option String) (session : Session)
    (hsid : sid ≠ "")
    (hfind : db.sessions.find? (fun s => s.id == sid) = some session)
    (hpart : session.tutor_id = uid ∨ session.learner_id = uid) :
    (session.status = "completed" →
      completeSession db uid ⟨sid, tn, ln⟩ now ⟨false, false⟩
        = (⟨400, "Session is already completed"⟩, db)) ∧
    (session.status ≠ "completed" → ∀ lp : Profile,
      findProfile db.profiles session.learner_id = some lp →
      (if session.is_ai_session then 1/2 else 1) ≤ lp.credits →
      (completeSession db uid ⟨sid, tn, ln⟩ now ⟨false, false⟩).1.status = 200 ∧
      sessionStatus (completeSession db uid ⟨sid, tn, ln⟩ now ⟨false, false⟩).2 sid
        = some "completed" ∧
      ∃ rest : List CreditTransaction,
        (completeSession db uid ⟨sid, tn, ln⟩ now ⟨false, false⟩).2.credit_transactions
          = db.credit_transactions ++
            ({ user_id := session.learner_id,
               amount := -(if session.is_ai_session then 1/2 else 1),
               type := if session.is_ai_session then "ai_session" else "learning",
               session_id := some sid,
               description := if session.is_ai_session then "AI Learning Session"
                              else "Human tutoring session" } :: rest)) := by
  have hsid' : (sid == "") = false := by simp [hsid]
  have hpart' : (session.tutor_id != uid && session.learner_id != uid) = false := by
    rcases hpart with h | h <;> simp [h]
  have hideq : session.id = sid := by
    have := List.find?_some hfind
    simpa using this
  have hidinv : ∀ s : Session,
      (((fun s : Session =>
          if s.id == sid then
            { s with status := "completed", completed_at := some now,
                     tutor_notes := jsOr tn s.tutor_notes,
                     learner_notes := jsOr ln s.learner_notes }
          else s) s).id == sid) = (s.id == sid) := by
    intro s
    by_cases h : s.id == sid <;> simp [h]
  constructor
  · intro h
    simp [completeSession, hsid', hfind, hpart', h]
  · intro hne lp hlp hge
    have hstat' : (session.status == "completed") = false := by simp [hne]
    cases hai : session.is_ai_session with
    | true =>
        have hge' : ¬ (lp.credits < 1/2) := by
          rw [hai] at hge; simpa using not_lt.mpr hge
        have hred : completeSession db uid ⟨sid, tn, ln⟩ now ⟨false, false⟩ =
            (⟨200, "Session completed and credits transferred"⟩,
              { db with
                  profiles := setCredits db.profiles session.learner_id (lp.credits - 1/2),
                  sessions := db.sessions.map fun s =>
                    if s.id == sid then
                      { s with status := "completed", completed_at := some now,
                               tutor_notes := jsOr tn s.tutor_notes,
                               learner_notes := jsOr ln s.learner_notes }
                    else s,
                  credit_transactions := db.credit_transactions ++
                    [{ user_id := session.learner_id, amount := -(1/2),
                       type := "ai_session", session_id := some sid,
                       description := "AI Learning Session" }] }) := by
          simp [-one_div, completeSession, hsid', hfind, hpart', hstat', hai, hlp, hge']
        refine ⟨by rw [hred], ?_, ?_⟩
        · rw [hred]
          show ((db.sessions.map _).find? _).map _ = _
          rw [find?_map_of_pred_inv _ _ _ hidinv, hfind]
          simp [hideq]
        · refine ⟨[], ?_⟩
          rw [hred]
          simp
    | false =>
        have hge' : ¬ (lp.credits < 1) := by
          rw [hai] at hge; simpa using not_lt.mpr hge
        rcases h2 : findProfile (setCredits db.profiles session.learner_id (lp.credits - 1))
            session.tutor_id with _ | tp
        · have hred : completeSession db uid ⟨sid, tn, ln⟩ now ⟨false, false⟩ =
              (⟨200, "Session completed and credits transferred"⟩,
                { db with
                    profiles := setCredits db.profiles session.learner_id (lp.credits - 1),
                    sessions := db.sessions.map fun s =>
                      if s.id == sid then
                        { s with status := "completed", completed_at := some now,
                                 tutor_notes := jsOr tn s.tutor_notes,
                                 learner_notes := jsOr ln s.learner_notes }
                      else s,
                    credit_transactions := db.credit_transactions ++
                      [{ user_id := session.learner_id, amount := -1,
                         type := "learning", session_id := some sid,
                         description := "Human tutoring session" },
                       { user_id := session.tutor_id, amount := 1, type := "teaching",
                         session_id := some sid,
                         description := "Teaching session completed" }] }) := by
            simp [-one_div, completeSession, hsid', hfind, hpart', hstat', hai, hlp, hge', h2]
          refine ⟨by rw [hred], ?_, ?_⟩
          · rw [hred]
            show ((db.sessions.map _).find? _).map _ = _
            rw [find?_map_of_pred_inv _ _ _ hidinv, hfind]
            simp [hideq]
          · refine ⟨[{ user_id := session.tutor_id, amount := 1, type := "teaching",
                       session_id := some sid,
                       description := "Teaching session completed" }], ?_⟩
            rw [hred]
            simp
        · have hred : completeSession db uid ⟨sid, tn, ln⟩ now ⟨false, false⟩ =
              (⟨200, "Session completed and credits transferred"⟩,
                { db with
                    profiles := setCredits
                      (setCredits db.profiles session.learner_id (lp.credits - 1))
                      session.tutor_id (tp.credits + 1),
                    sessions := db.sessions.map fun s =>
                      if s.id == sid then
                        { s with status := "completed", completed_at := some now,
                                 tutor_notes := jsOr tn s.tutor_notes,
                                 learner_notes := jsOr ln s.learner_notes }
                      else s,
                    credit_transactions := db.credit_transactions ++
                      [{ user_id := session.learner_id, amount := -1,
                         type := "learning", session_id := some sid,
                         description := "Human tutoring session" },
                       { user_id := session.tutor_id, amount := 1, type := "teaching",
                         session_id := some sid,
                         description := "Teaching session completed" }] }) := by
            simp [-one_div, completeSession, hsid', hfind, hpart', hstat', hai, hlp, hge', h2]
          refine ⟨by rw [hred], ?_, ?_⟩
          · rw [hred]
            show ((db.sessions.map _).find? _).map _ = _
            rw [find?_map_of_pred_inv _ _ _ hidinv, hfind]
            simp [hideq]
          · refine ⟨[{ user_id := session.tutor_id, amount := 1, type := "teaching",
                       session_id := some sid,
                       description := "Teaching session completed" }], ?_⟩
            rw [hred]
            simp

/-- Concrete run of the C10 theorem: the completed session is refused,
the cancelled session is completed and charged. -/
theorem completeSession_gate_only_completed_witness :
    completeSession exDB "A" ⟨"sD", none, none⟩ "t0" ⟨false, false⟩
      = (⟨400, "Session is already completed"⟩, exDB) ∧
    (completeSession exDB "A" ⟨"sC", none, none⟩ "t0" ⟨false, false⟩).1.status = 200 ∧
    sessionStatus (completeSession exDB "A" ⟨"sC", none, none⟩ "t0" ⟨false, false⟩).2 "sC"
      = some "completed" := by
  have hA := (completeSession_gate_only_completed exDB "A" "sD" "t0" none none
    ⟨"sD", none, "B", "A", none, "2026-03-03T10:00", 60, "completed", none, none, false, none⟩
    (by decide) rfl (Or.inr rfl)).1 rfl
  have hB := (completeSession_gate_only_completed exDB "A" "sC" "t0" none none
    ⟨"sC", none, "B", "A", none, "2026-03-04T10:00", 60, "cancelled", none, none, false, none⟩
    (by decide) rfl (Or.inr rfl)).2 (by decide) ⟨"A", "Ana", 5⟩ rfl (by decide)
  exact ⟨hA, hB.1, hB.2.1⟩

end SkillShare
